import Mathlib

/-!
Shallow embedding of `DeepSeekClient.stream_chat` and its helper
`_process_think_tag_content` from `src/app/clients/deepseek_client.py`.

The generator consumes transport deliveries (chunks), splits each chunk
into lines, keeps the lines that start with the literal `data: `, stops
the whole stream on the sentinel payload `[DONE]`, parses the rest as
JSON and classifies each delta either in native mode
(`is_origin_reasoning = true`, structured `reasoning_content` /
`content` fields) or in tag-inference mode (a stateful scan of the flat
`content` text for the markers `<think>` and `</think>`).

Python's `json.loads` is not reimplemented: the string-level layer is
parameterised by an abstract decoder `jloads` whose behaviour on the
concrete payloads of a theorem is stated as a hypothesis, and the
line-level layer works directly on decoded line items, mirroring how the
claims themselves are phrased ("the decoded delta sequence ...").
-/

/-- The two tags a yielded pair can carry: `"reasoning"` or `"content"`. -/
inductive Phase
  | reasoning
  | content
deriving DecidableEq, Repr

/-- One yielded pair `(内容类型, 内容)` of the generator. -/
abbrev Event := Phase × String

/-- A JSON field of a delta object as seen through Python's `dict.get`:
missing key, explicit `null`, or a string value. -/
inductive JField
  | absent
  | null
  | str (s : String)
deriving DecidableEq, Repr

/-- Python truthiness of the field value as used in `if delta.get(k):`
(a missing key and `None` are falsy, a string is truthy iff nonempty). -/
def JField.truthy : JField → Bool
  | .str s => s != ""
  | _ => false

/-- Python's `delta.get(k) is None`: true for a missing key and for an
explicit `null`, false for any string value (even the empty string). -/
def JField.isNoneGet : JField → Bool
  | .str _ => false
  | _ => true

/-- The string value of a field; only read under a `truthy` guard,
mirroring `content = delta[k]` in the source. -/
def JField.getStr : JField → String
  | .str s => s
  | _ => ""

/-- The delta object of one parsed stream event: the two fields
`stream_chat` reads. -/
structure Delta where
  reasoning_content : JField
  content : JField
deriving DecidableEq, Repr

/-- Python's substring test `needle in hay` on lists of characters. -/
def listContainsSub : List Char → List Char → Bool
  | needle, [] => needle.isPrefixOf []
  | needle, c :: rest => needle.isPrefixOf (c :: rest) || listContainsSub needle rest

/-- Python's substring test `needle in hay` on strings. -/
def strContains (hay needle : String) : Bool :=
  listContainsSub needle.toList hay.toList

/-- `_process_think_tag_content` (deepseek_client.py lines 31-52):
returns whether a complete think-tag pair was detected together with the
(unchanged) content.  Note the source returns the content unmodified on
every branch, and `stream_chat` discards this function's result. -/
def processThinkTagContent (content : String) : Bool × String :=
  let has_start := strContains content "<think>"
  let has_end := strContains content "</think>"
  if has_start && has_end then (true, content)
  else if has_start then (false, content)
  else if !has_start && !has_end then (false, content)
  else (true, content)

/-- Native-mode classification of one delta
(deepseek_client.py lines 117-131): a `reasoning` event when
`delta.get("reasoning_content")` is truthy, then a `content` event when
`delta.get("reasoning_content") is None` and `delta.get("content")` is
truthy. -/
def nativeDeltaEvents (delta : Delta) : List Event :=
  (if delta.reasoning_content.truthy then
     [(Phase.reasoning, delta.reasoning_content.getStr)]
   else []) ++
  (if delta.reasoning_content.isNoneGet && delta.content.truthy then
     [(Phase.content, delta.content.getStr)]
   else [])

/-- The mutable state of the tag-inference scan
(`accumulated_content`, `is_collecting_think`; lines 95-96). -/
structure TagState where
  accumulated_content : String
  is_collecting_think : Bool
deriving DecidableEq, Repr

/-- Initial state of the scan: empty buffer, not collecting. -/
def initTagState : TagState := ⟨"", false⟩

/-- Tag-inference classification of one delta
(deepseek_client.py lines 132-168).  Returns the updated state and the
yielded events, in order.  The completeness check
`processThinkTagContent` is computed on the accumulated buffer but its
result is unused, exactly as in the source. -/
def tagDeltaStep (st : TagState) (delta : Delta) : TagState × List Event :=
  if delta.content.truthy then
    let content := delta.content.getStr
    if content == "" then (st, [])
    else
      let accumulated := st.accumulated_content ++ content
      let _ := processThinkTagContent accumulated
      if strContains content "<think>" && !st.is_collecting_think then
        (⟨accumulated, true⟩, [(Phase.reasoning, content)])
      else if st.is_collecting_think then
        if strContains content "</think>" then
          (⟨"", false⟩, [(Phase.reasoning, content), (Phase.content, "")])
        else
          (⟨accumulated, st.is_collecting_think⟩, [(Phase.reasoning, content)])
      else
        (⟨accumulated, st.is_collecting_think⟩, [(Phase.content, content)])
  else (st, [])

/-- One decoded line of a delivery, after the `data: ` filtering and the
JSON parse of `stream_chat`'s inner loop (lines 103-115):
`noData` is a line not starting with `data: ` (skipped);
`done` is the sentinel payload `[DONE]`;
`malformed` is a payload on which `json.loads` raises;
`payload none` is a parsed object failing the truthiness guard
`data and data.get("choices") and data["choices"][0].get("delta")`
(skipped); `payload (some d)` carries the delta object. -/
inductive LineItem
  | noData
  | done
  | malformed
  | payload (d : Option Delta)
deriving DecidableEq, Repr

/-- Outcome of processing the lines of one delivery: either the stream
continues with an updated state, or the `[DONE]` sentinel made the
generator `return`. -/
inductive StepResult
  | next (st : TagState) (evs : List Event)
  | stop (evs : List Event)
deriving DecidableEq, Repr

/-- The loop `for line in lines` of one delivery (lines 103-168), with
the source's exception scoping: `json.JSONDecodeError` (and any other
exception) is caught by the handlers wrapping the whole per-chunk loop
(lines 170-173), so a malformed payload abandons the remaining lines of
the same delivery; `[DONE]` executes `return`, ending the generator. -/
def processLines (is_origin_reasoning : Bool) (st : TagState) :
    List LineItem → StepResult
  | [] => .next st []
  | li :: rest =>
    match li with
    | .noData => processLines is_origin_reasoning st rest
    | .done => .stop []
    | .malformed => .next st []
    | .payload none => processLines is_origin_reasoning st rest
    | .payload (some delta) =>
      let step : TagState × List Event :=
        if is_origin_reasoning then (st, nativeDeltaEvents delta)
        else tagDeltaStep st delta
      match processLines is_origin_reasoning step.1 rest with
      | .next st2 evs2 => .next st2 (step.2 ++ evs2)
      | .stop evs2 => .stop (step.2 ++ evs2)

/-- The outer loop `async for chunk in self._make_request(...)`
(line 98) over decoded deliveries, threading the tag-inference state and
stopping for good on `[DONE]`. -/
def streamChatLines (is_origin_reasoning : Bool) (st : TagState) :
    List (List LineItem) → List Event
  | [] => []
  | c :: cs =>
    match processLines is_origin_reasoning st c with
    | .next st2 evs => evs ++ streamChatLines is_origin_reasoning st2 cs
    | .stop evs => evs

/-- All events yielded by `stream_chat` on a list of decoded deliveries,
from the initial state. -/
def streamChat (is_origin_reasoning : Bool) (chunks : List (List LineItem)) :
    List Event :=
  streamChatLines is_origin_reasoning initTagState chunks

/-- Python's `str.splitlines` restricted to the line terminators that
can occur here: splits on a linefeed, a carriage return, or the pair of
the two, and yields no trailing empty line. -/
def pySplitlinesAux : List Char → List Char → List String
  | [], acc => if acc.isEmpty then [] else [⟨acc.reverse⟩]
  | '\n' :: rest, acc => (⟨acc.reverse⟩ : String) :: pySplitlinesAux rest []
  | '\r' :: '\n' :: rest, acc => (⟨acc.reverse⟩ : String) :: pySplitlinesAux rest []
  | '\r' :: rest, acc => (⟨acc.reverse⟩ : String) :: pySplitlinesAux rest []
  | c :: rest, acc => pySplitlinesAux rest (c :: acc)

/-- `chunk_str.splitlines()` (line 102). -/
def pySplitlines (s : String) : List String :=
  pySplitlinesAux s.toList []

/-- Classification of one raw line (lines 104-115), parameterised by the
abstract JSON decoder `jloads` standing for `json.loads` composed with
the truthiness guard on `data`, `choices` and `delta`:
`jloads p = none` means `json.loads` raises on payload `p`;
`jloads p = some d` means it parses, with `d` the extracted delta when
the guard holds. -/
def classifyLine (jloads : String → Option (Option Delta)) (line : String) :
    LineItem :=
  if "data: ".toList.isPrefixOf line.toList then
    let json_str : String := ⟨line.toList.drop "data: ".length⟩
    if json_str == "[DONE]" then .done
    else
      match jloads json_str with
      | none => .malformed
      | some d => .payload d
  else .noData

/-- Decoding one transport delivery into line items:
`chunk.decode("utf-8")` is the identity on our string model, then
`splitlines` and per-line classification. -/
def decodeChunk (jloads : String → Option (Option Delta)) (chunk : String) :
    List LineItem :=
  (pySplitlines chunk).map (classifyLine jloads)

/-- `stream_chat`'s event output on raw string deliveries. -/
def streamChatStr (jloads : String → Option (Option Delta))
    (is_origin_reasoning : Bool) (chunks : List String) : List Event :=
  streamChat is_origin_reasoning (chunks.map (decodeChunk jloads))

/-- The two settings `stream_chat` reads from `self.system_config`
(lines 83-84); a `none` field models a key missing from the dict, so
that `dict.get` falls back to its default. -/
structure SystemConfig where
  save_deepseek_tokens : Option Bool
  save_deepseek_tokens_max_tokens : Option Nat
deriving DecidableEq, Repr

/-- The outbound request body built by `stream_chat` (lines 76-91):
always `model`, `messages`, `stream: true`; `max_tokens` present exactly
when added by line 90. -/
structure RequestData where
  model : String
  messages : List String
  stream : Bool
  max_tokens : Option Nat
deriving DecidableEq, Repr

/-- Request construction (deepseek_client.py lines 76-91):
`save_deepseek_tokens` defaults to `False`,
`save_deepseek_tokens_max_tokens` defaults to `5`, and `max_tokens` is
injected only when `is_origin_reasoning and save_deepseek_tokens`. -/
def buildRequestData (messages : List String) (model : String)
    (is_origin_reasoning : Bool) (cfg : SystemConfig) : RequestData :=
  let base : RequestData :=
    { model := model, messages := messages, stream := true, max_tokens := none }
  let save_deepseek_tokens := cfg.save_deepseek_tokens.getD false
  let max_tokens_limit := cfg.save_deepseek_tokens_max_tokens.getD 5
  if is_origin_reasoning && save_deepseek_tokens then
    { base with max_tokens := some max_tokens_limit }
  else base

/-- The JSON payload of a stream line truncated mid-key, as produced
when the transport splits one logical line across two deliveries. -/
def c6PartialJson : String := "\x7b\"choices\":[\x7b\"delta\":\x7b\"reasoning_"

/-- The complete JSON payload of one native-mode stream line carrying
the delta `reasoning_content: "hi"`. -/
def c6FullJson : String :=
  "\x7b\"choices\":[\x7b\"delta\":\x7b\"reasoning_content\":\"hi\"\x7d\x7d]\x7d"

/-- First delivery: the line prefix plus the truncated payload. -/
def c6PartialChunkA : String := "data: " ++ c6PartialJson

/-- Second delivery: the remainder of the same logical line. -/
def c6PartialChunkB : String := "content\":\"hi\"\x7d\x7d]\x7d"

/-- The same logical line delivered whole. -/
def c6FullLine : String := "data: " ++ c6FullJson

/-- A concrete stand-in for `json.loads` (with the delta-extraction
guard) agreeing with it on the payloads above: the truncated payload
raises, the complete payload parses to the delta
`reasoning_content: "hi"`. -/
def c6jloads : String → Option (Option Delta) := fun s =>
  if s == c6FullJson then some (some ⟨JField.str "hi", JField.absent⟩) else none

/-! ## Claims -/

/-- C1 (counterexample): a fragment containing a balanced `<think>` /
`</think>` pair arriving while not collecting takes the opening-marker
branch, so no synthetic phase-boundary event is ever emitted for the
pair: the run yields only the two reasoning events and zero
`(content, "")` events, refuting the claim that the single-fragment
balanced case emits exactly one phase-boundary event. -/
theorem C1_counterexample_single_fragment_pair_no_boundary :
    streamChat false
        [[LineItem.payload (some ⟨JField.absent, JField.str "<think>a</think>"⟩)],
         [LineItem.payload (some ⟨JField.absent, JField.str "answer"⟩)]] =
      [(Phase.reasoning, "<think>a</think>"), (Phase.reasoning, "answer")] ∧
    (streamChat false
        [[LineItem.payload (some ⟨JField.absent, JField.str "<think>a</think>"⟩)],
         [LineItem.payload (some ⟨JField.absent, JField.str "answer"⟩)]]).count
        (Phase.content, "") = 0 := by
  decide

/-- C1 (amended): in tag-inference mode, one processing step emits a
`(content, "")` phase-boundary event exactly when the fragment is truthy,
the machine is collecting, and the fragment contains the closing marker;
in that case the step's output is precisely the reasoning event for the
fragment immediately followed by the single boundary event.  (The
single-fragment balanced case opens collection instead and emits no
boundary, as the counterexample shows.) -/
theorem C1_phase_boundary_per_closing_while_collecting
    (st : TagState) (d : Delta) :
    ((tagDeltaStep st d).2.count (Phase.content, "") =
      if d.content.truthy && st.is_collecting_think &&
          strContains d.content.getStr "</think>" then 1 else 0) ∧
    (d.content.truthy = true → st.is_collecting_think = true →
      strContains d.content.getStr "</think>" = true →
      (tagDeltaStep st d).2 =
        [(Phase.reasoning, d.content.getStr), (Phase.content, "")]) := by
  rcases d with ⟨rc, c⟩
  rcases c with _ | _ | s
  · simp [tagDeltaStep, JField.truthy]
  · simp [tagDeltaStep, JField.truthy]
  · by_cases hs : s = ""
    · subst hs
      simp [tagDeltaStep, JField.truthy]
    · have hs' : (s != "") = true := by simpa using hs
      constructor
      · simp only [tagDeltaStep, JField.truthy, JField.getStr, hs']
        by_cases hopen : strContains s "<think>" = true <;>
          by_cases hcoll : st.is_collecting_think = true <;>
            by_cases hclose : strContains s "</think>" = true <;>
              simp [hopen, hcoll, hclose, hs, List.count_cons, beq_iff_eq,
                Bool.not_eq_true] at *
      · intro _ hcoll hclose
        simp only [tagDeltaStep, JField.truthy, JField.getStr, hs'] at *
        simp [hcoll, hclose, hs]

/-- C1 (witness): a closing-marker fragment arriving while collecting
yields the reasoning event followed by exactly the boundary event. -/
theorem C1_phase_boundary_witness :
    (tagDeltaStep ⟨"<think>s", true⟩ ⟨JField.absent, JField.str "x</think>"⟩).2 =
      [(Phase.reasoning, "x</think>"), (Phase.content, "")] :=
  (C1_phase_boundary_per_closing_while_collecting ⟨"<think>s", true⟩
    ⟨JField.absent, JField.str "x</think>"⟩).2 (by decide) (by decide) (by decide)

/-- C2: in native mode, the decoded sequence
`{reasoning_content:"because"}`, `{reasoning_content:null, content:"42"}`,
`[DONE]` yields exactly `(reasoning, "because")` then `(content, "42")`,
and the `[DONE]` sentinel ends the stream: any further deliveries
contribute no events. -/
theorem C2_native_scenario_A (extra : List (List LineItem)) :
    streamChat true
        ([[LineItem.payload (some ⟨JField.str "because", JField.absent⟩)],
          [LineItem.payload (some ⟨JField.null, JField.str "42"⟩)],
          [LineItem.done]] ++ extra) =
      [(Phase.reasoning, "because"), (Phase.content, "42")] := rfl

/-- C3: in tag-inference mode, the fragments `"<think>"`, `"step one"`,
`"</think>"`, `"answer"` yield exactly `(reasoning, "<think>")`,
`(reasoning, "step one")`, `(reasoning, "</think>")`, `(content, "")`,
`(content, "answer")`, in that order. -/
theorem C3_tag_scenario_B :
    streamChat false
        [[LineItem.payload (some ⟨JField.absent, JField.str "<think>"⟩)],
         [LineItem.payload (some ⟨JField.absent, JField.str "step one"⟩)],
         [LineItem.payload (some ⟨JField.absent, JField.str "</think>"⟩)],
         [LineItem.payload (some ⟨JField.absent, JField.str "answer"⟩)]] =
      [(Phase.reasoning, "<think>"), (Phase.reasoning, "step one"),
       (Phase.reasoning, "</think>"), (Phase.content, ""),
       (Phase.content, "answer")] := rfl

/-- C4 (counterexample): a fragment containing both markers is not
passed through unclassified — arriving while not collecting it yields
one event tagged `reasoning`; arriving while collecting it yields two
events (the reasoning event plus the synthetic boundary), refuting both
the "unclassified" and the "exactly one event" parts of the claim. -/
theorem C4_counterexample_both_markers_classified :
    streamChat false
        [[LineItem.payload (some ⟨JField.absent, JField.str "<think>x</think>"⟩)]] =
      [(Phase.reasoning, "<think>x</think>")] ∧
    streamChat false
        [[LineItem.payload (some ⟨JField.absent, JField.str "<think>"⟩)],
         [LineItem.payload
            (some ⟨JField.absent, JField.str "x</think><think>y</think>"⟩)]] =
      [(Phase.reasoning, "<think>"),
       (Phase.reasoning, "x</think><think>y</think>"), (Phase.content, "")] := by
  decide

/-- C4 (amended): a nonempty fragment containing both the opening and
the closing marker is forwarded with its text unchanged and never
duplicated, but it is classified: one `reasoning`-tagged event when the
machine is not collecting (the completeness check's result being
discarded), and the reasoning event plus the synthetic boundary when it
is collecting. -/
theorem C4_both_markers_single_event_amended (st : TagState) (rc : JField)
    (c : String) (hc : c ≠ "") (h1 : strContains c "<think>" = true)
    (h2 : strContains c "</think>" = true) :
    (tagDeltaStep st ⟨rc, JField.str c⟩).2 =
      if st.is_collecting_think then
        [(Phase.reasoning, c), (Phase.content, "")]
      else [(Phase.reasoning, c)] := by
  have hc' : (c != "") = true := by simpa using hc
  by_cases hcoll : st.is_collecting_think = true
  · simp [tagDeltaStep, JField.truthy, JField.getStr, hc', hc, h1, h2, hcoll]
  · simp only [Bool.not_eq_true] at hcoll
    simp [tagDeltaStep, JField.truthy, JField.getStr, hc', hc, h1, h2, hcoll]

/-- C4 (witness): from the initial state, the both-marker fragment
`"<think>x</think>"` yields the single reasoning-tagged event. -/
theorem C4_both_markers_witness :
    (tagDeltaStep initTagState ⟨JField.absent, JField.str "<think>x</think>"⟩).2 =
      if initTagState.is_collecting_think then
        [(Phase.reasoning, "<think>x</think>"), (Phase.content, "")]
      else [(Phase.reasoning, "<think>x</think>")] :=
  C4_both_markers_single_event_amended initTagState JField.absent
    "<think>x</think>" (by decide) (by decide) (by decide)

/-- C5 (counterexample): a native-mode delta whose `reasoning_content`
is present but the empty string and whose `content` is `"42"` emits no
event at all, because the code tests `is None` rather than falsiness:
the claim's "absent or empty" disjunct fails on the empty string. -/
theorem C5_counterexample_empty_reasoning_field :
    streamChat true
        [[LineItem.payload (some ⟨JField.str "", JField.str "42"⟩)]] = [] := by
  decide

/-- C5 (amended): in native mode, a delta whose `reasoning_content` is
absent or an explicit `null` (the `is None` test; an empty string does
not qualify) and whose `content` is non-empty emits exactly the
`(content, text)` event, whose text is nonempty — so no empty-text
marker event is ever produced in native mode. -/
theorem C5_native_content_amended (d : Delta)
    (h1 : d.reasoning_content.isNoneGet = true)
    (h2 : d.content.truthy = true) :
    nativeDeltaEvents d = [(Phase.content, d.content.getStr)] ∧
      d.content.getStr ≠ "" := by
  rcases d with ⟨rc, c⟩
  rcases c with _ | _ | s
  · simp [JField.truthy] at h2
  · simp [JField.truthy] at h2
  · rcases rc with _ | _ | r
    · simp_all [nativeDeltaEvents, JField.truthy, JField.isNoneGet, JField.getStr]
    · simp_all [nativeDeltaEvents, JField.truthy, JField.isNoneGet, JField.getStr]
    · simp [JField.isNoneGet] at h1

/-- C5 (witness): the delta `{reasoning_content: null, content: "42"}`
emits exactly `(content, "42")`. -/
theorem C5_native_content_witness :
    nativeDeltaEvents ⟨JField.null, JField.str "42"⟩ =
      [(Phase.content, "42")] ∧ ("42" : String) ≠ "" :=
  C5_native_content_amended ⟨JField.null, JField.str "42"⟩ (by decide) (by decide)

/-- C6 (code violates the requirement): the decoder never defers an
incomplete trailing line.  For any JSON decoder agreeing with
`json.loads` on the payloads involved, the logical line
`data: {"choices":[{"delta":{"reasoning_content":"hi"}}]}` split across
two deliveries yields no event at all (the first half is a malformed
payload and is dropped, the second half lacks the `data: ` marker and is
skipped), while the same line delivered whole yields the event
`(reasoning, "hi")`. -/
theorem C6_no_line_deferral (jloads : String → Option (Option Delta))
    (h1 : jloads c6PartialJson = none)
    (h2 : jloads c6FullJson = some (some ⟨JField.str "hi", JField.absent⟩)) :
    streamChatStr jloads true [c6PartialChunkA, c6PartialChunkB] = [] ∧
    streamChatStr jloads true [c6FullLine] = [(Phase.reasoning, "hi")] := by
  have hA : classifyLine jloads c6PartialChunkA = LineItem.malformed := by
    change (match jloads c6PartialJson with
            | none => LineItem.malformed
            | some d => LineItem.payload d) = LineItem.malformed
    rw [h1]
  have hF : classifyLine jloads c6FullLine =
      LineItem.payload (some ⟨JField.str "hi", JField.absent⟩) := by
    change (match jloads c6FullJson with
            | none => LineItem.malformed
            | some d => LineItem.payload d) =
      LineItem.payload (some ⟨JField.str "hi", JField.absent⟩)
    rw [h2]
  constructor
  · change streamChatLines true initTagState
      [[classifyLine jloads c6PartialChunkA], [LineItem.noData]] = []
    rw [hA]
    rfl
  · change streamChatLines true initTagState
      [[classifyLine jloads c6FullLine]] = [(Phase.reasoning, "hi")]
    rw [hF]
    rfl

/-- C6 (witness): the two partial deliveries concatenate to the full
line, yet produce no event, while the whole line produces one. -/
theorem C6_no_line_deferral_witness :
    c6PartialChunkA ++ c6PartialChunkB = c6FullLine ∧
    streamChatStr c6jloads true [c6PartialChunkA, c6PartialChunkB] = [] ∧
    streamChatStr c6jloads true [c6FullLine] = [(Phase.reasoning, "hi")] :=
  ⟨by decide, C6_no_line_deferral c6jloads (by decide) (by decide)⟩

/-- C7 (counterexample): a malformed line aborts the remaining lines of
its own delivery — with a well-formed line after the malformed one in
the same delivery, nothing is emitted, whereas the same well-formed line
alone emits its reasoning event. -/
theorem C7_counterexample_malformed_skips_rest_of_delivery :
    streamChat true
        [[LineItem.malformed,
          LineItem.payload (some ⟨JField.str "a", JField.absent⟩)]] = [] ∧
    streamChat true
        [[LineItem.payload (some ⟨JField.str "a", JField.absent⟩)]] =
      [(Phase.reasoning, "a")] := by
  decide

/-- C7 (amended): a malformed line is skipped together with all the
remaining lines of the same delivery (the exception handler wraps the
whole per-delivery loop), the state is unchanged, events of lines
processed before the malformed one are kept, and the stream continues
with the subsequent deliveries rather than aborting. -/
theorem C7_malformed_abandons_delivery_stream_continues
    (is_origin_reasoning : Bool) (st : TagState) (d : Delta)
    (rest : List LineItem) (cs : List (List LineItem)) :
    streamChatLines is_origin_reasoning st
        ((LineItem.malformed :: rest) :: cs) =
      streamChatLines is_origin_reasoning st cs ∧
    streamChatLines is_origin_reasoning st
        ((LineItem.payload (some d) :: LineItem.malformed :: rest) :: cs) =
      (if is_origin_reasoning then (st, nativeDeltaEvents d)
       else tagDeltaStep st d).2 ++
        streamChatLines is_origin_reasoning
          (if is_origin_reasoning then (st, nativeDeltaEvents d)
           else tagDeltaStep st d).1 cs := by
  constructor
  · rfl
  · cases is_origin_reasoning <;>
      simp [streamChatLines, processLines]

/-- C8: a delivery carrying the sentinel line ends the stream at once in
either mode: at the line level, a `[DONE]` item yields no event and
suppresses both the remaining lines of its delivery and every later
delivery; at the string level, the delivery `data: [DONE]` does the
same for any JSON decoder. -/
theorem C8_done_ends_stream (is_origin_reasoning : Bool) :
    (∀ (st : TagState) (rest : List LineItem) (cs : List (List LineItem)),
        streamChatLines is_origin_reasoning st
          ((LineItem.done :: rest) :: cs) = []) ∧
    (∀ (jloads : String → Option (Option Delta)) (cs : List String),
        streamChatStr jloads is_origin_reasoning ("data: [DONE]" :: cs) = []) := by
  constructor
  · intro st rest cs
    rfl
  · intro jloads cs
    rfl

/-- C9: the outbound request carries `max_tokens` — set to the
configured `save_deepseek_tokens_max_tokens`, default 5 — exactly when
native reasoning is enabled and `save_deepseek_tokens` (default false)
is enabled; in every other configuration the field is absent. -/
theorem C9_max_tokens_iff (messages : List String) (model : String)
    (is_origin_reasoning : Bool) (cfg : SystemConfig) :
    (buildRequestData messages model is_origin_reasoning cfg).max_tokens =
      if is_origin_reasoning && cfg.save_deepseek_tokens.getD false then
        some (cfg.save_deepseek_tokens_max_tokens.getD 5)
      else none := by
  cases hb : (is_origin_reasoning && cfg.save_deepseek_tokens.getD false) <;>
    simp [buildRequestData, hb]

/-- C10: in native mode, a single delta carrying both a nonempty
`reasoning_content` and a nonempty `content` yields only the
`(reasoning, reasoning_content)` event — the content text produces no
event, because the content branch requires `reasoning_content` to be
`None`. -/
theorem C10_native_both_fields_drops_content (r c : String)
    (hr : r ≠ "") (hc : c ≠ "") :
    streamChat true [[LineItem.payload (some ⟨JField.str r, JField.str c⟩)]] =
      [(Phase.reasoning, r)] := by
  have hr' : (r != "") = true := by simpa using hr
  simp [streamChat, streamChatLines, processLines, nativeDeltaEvents,
    JField.truthy, JField.isNoneGet, JField.getStr, hr', initTagState]

/-- C10 (witness): the delta with `reasoning_content: "because"` and
`content: "42"` emits only `(reasoning, "because")`. -/
theorem C10_native_both_fields_witness :
    streamChat true
        [[LineItem.payload (some ⟨JField.str "because", JField.str "42"⟩)]] =
      [(Phase.reasoning, "because")] :=
  C10_native_both_fields_drops_content "because" "42" (by decide) (by decide)
